import Mathlib

/-!
Shallow embedding of the `hyper-trace-id` crate.

The crate has three source files:
* `lib.rs` — the `MakeTraceId` trait (identifier strategy) and the `TraceId<T>`
  wrapper;
* `layer.rs` — the tower layer `SetTraceIdLayer<T>` and the service
  `TraceIdMiddleware<S, T>` whose `call` inserts a fresh `TraceId<T>` into the
  request extensions and optionally mirrors its rendered string into a
  configured request/response header;
* `extract.rs` — the axum extractor `TraceId<T>: FromRequestParts` and its
  `TraceIdRejection`.

Modelling choices:
* HTTP header machinery (`HeaderName`, `HeaderValue`, `HeaderMap`) comes from
  the external `http` crate; it is embedded here with its documented
  validation rules (token characters for names, visible bytes for values,
  `insert` replaces the existing value for a name).
* Request extensions form a typed heterogeneous map with at most one entry per
  type; for a fixed identifier type `T` the map is embedded as one
  `Option (TraceId T)` slot plus an opaque slot `ext_other` standing for every
  entry of any other type.
* The randomness of the default UUID strategy is modelled by quantifying over
  the strategy: `MakeTraceId T` is a value bundling the generator and the
  `Display` rendering, and theorems hold for every such value.
* Panics (the `unwrap` calls in the source) are modelled by an `Option`
  "panic monad": `none` is a panic.
* The inner tower service is embedded as a function
  `Request → Except ε (Response)`; awaiting its future either yields a
  response or an error that `?` propagates.
-/

/-- Characters legal in an HTTP header name, after the `HEADER_CHARS` table of
the `http` crate used by `HeaderName::from_str`: lowercase and uppercase
letters, digits, and the token symbols `!#$%&'*+-.^_`|~` (codes 33, 35, 36,
37, 38, 39, 42, 43, 45, 46, 94, 95, 96, 124, 126). -/
def is_header_name_char (c : Char) : Bool :=
  let n := c.toNat
  (97 ≤ n && n ≤ 122) || (65 ≤ n && n ≤ 90) || (48 ≤ n && n ≤ 57) ||
  n == 33 || n == 35 || n == 36 || n == 37 || n == 38 || n == 39 ||
  n == 42 || n == 43 || n == 45 || n == 46 || n == 94 || n == 95 ||
  n == 96 || n == 124 || n == 126

/-- An HTTP header name (the `http` crate's `HeaderName`): stored lowercased. -/
structure HeaderName where
  name : String
deriving DecidableEq, Repr

/-- `HeaderName::from_str` of the `http` crate: fails on the empty string or on
any character outside the token set, otherwise lowercases the name. -/
def HeaderName.from_str (s : String) : Option HeaderName :=
  if !s.data.isEmpty && s.data.all is_header_name_char then
    some ⟨String.mk (s.data.map Char.toLower)⟩
  else none

/-- Characters legal in an HTTP header value, after the `http` crate's
`HeaderValue` byte check (tab, or a visible byte: `b == 9 || b >= 32 && b != 127`).
A character of code ≥ 128 encodes to UTF-8 bytes that are all ≥ 0x80 and hence
all legal, so at the character level only ASCII characters are constrained. -/
def is_valid_header_value_char (c : Char) : Bool :=
  128 ≤ c.toNat || c.toNat == 9 || (32 ≤ c.toNat && c.toNat != 127)

/-- An HTTP header value (the `http` crate's `HeaderValue`). -/
structure HeaderValue where
  value : String
deriving DecidableEq, Repr

/-- `HeaderValue::try_from(String)` of the `http` crate: succeeds exactly when
every character is legal in a header value. -/
def HeaderValue.try_from (s : String) : Option HeaderValue :=
  if s.data.all is_valid_header_value_char then some ⟨s⟩ else none

/-- An HTTP header map, as a lookup function from names to values. -/
def HeaderMap : Type := HeaderName → Option HeaderValue

/-- `HeaderMap::insert`: sets the value for a name, replacing any existing
value for that name and leaving every other name untouched. -/
def HeaderMap.insert (m : HeaderMap) (k : HeaderName) (v : HeaderValue) : HeaderMap :=
  fun k2 => if k2 = k then some v else m k2

/-- The empty header map. -/
def HeaderMap.empty : HeaderMap := fun _ => none

/-- The `MakeTraceId` trait of `lib.rs` together with its `Display` supertrait
bound, bundled as a strategy value: `make_trace_id` is the generated
identifier (one per call; quantified over to model the UUID randomness) and
`display` renders an identifier to a string. -/
structure MakeTraceId (T : Type) where
  make_trace_id : T
  display : T → String

/-- `TraceId<T>` of `lib.rs`: wraps a single identifier value. -/
structure TraceId (T : Type) where
  id : T
deriving DecidableEq, Repr

/-- `TraceId::new` of `lib.rs`: wraps a freshly generated identifier. -/
def TraceId.new (st : MakeTraceId T) : TraceId T := ⟨st.make_trace_id⟩

/-- `Display for TraceId<T>` of `lib.rs`: delegates to the identifier. -/
def TraceId.to_string (st : MakeTraceId T) (t : TraceId T) : String :=
  st.display t.id

/-- An HTTP request (`hyper::http::Request<Rq>`), for identifier type `T`,
body type `Rq`, and `ext_other : E` standing for all extension entries of
types other than `TraceId T`. The typed extension map holds at most one entry
per type, embedded as the `ext_trace_id` slot. -/
structure Request (T Rq E : Type) where
  method : String
  uri : String
  headers : HeaderMap
  ext_trace_id : Option (TraceId T)
  ext_other : E
  body : Rq

/-- An HTTP response (`hyper::http::Response<Rs>`). -/
structure Response (Rs : Type) where
  status : Nat
  headers : HeaderMap
  body : Rs

/-- `SetTraceIdLayer<T>` of `layer.rs`: optional header name configuration. -/
structure SetTraceIdLayer (T : Type) where
  header_name : Option HeaderName
deriving DecidableEq, Repr

/-- `SetTraceIdLayer::new`. -/
def SetTraceIdLayer.new (T : Type) : SetTraceIdLayer T := ⟨none⟩

/-- `SetTraceIdLayer::with_header_name`: parses the given string with
`HeaderName::from_str` and calls `unwrap` on the result; the `none` of the
returned `Option` models the panic of that `unwrap` on an invalid name. -/
def SetTraceIdLayer.with_header_name (_self : SetTraceIdLayer T) (header_name : String) :
    Option (SetTraceIdLayer T) :=
  (HeaderName.from_str header_name).map fun h => ⟨some h⟩

/-- `TraceIdMiddleware<S, T>` of `layer.rs`: the wrapped inner service (a
function from requests to a fallible response), the optional header name
copied from the layer, and the identifier strategy for `T`. -/
structure TraceIdMiddleware (T Rq Rs E ε : Type) where
  inner : Request T Rq E → Except ε (Response Rs)
  header_name : Option HeaderName
  strat : MakeTraceId T

/-- `Layer::layer for SetTraceIdLayer<T>`: wraps the inner service with the
layer's header name. -/
def SetTraceIdLayer.layer (l : SetTraceIdLayer T) (st : MakeTraceId T)
    (inner : Request T Rq E → Except ε (Response Rs)) : TraceIdMiddleware T Rq Rs E ε :=
  ⟨inner, l.header_name, st⟩

/-- `TraceIdMiddleware::call` of `layer.rs`, lines 101-130. Steps, in source
order: generate `trace_id` and insert it into the request extensions; if a
header name is configured, compute `header_val` as the rendered identifier
encoded as a header value with the `"unavailable"` fallback, and insert it
into the request headers (`header_val.clone().unwrap()`); call the inner
service and await (`?` propagates its error); if a header name is configured,
insert `header_val.unwrap()` into the response headers. The outer `Option` is
the panic monad for the two `unwrap` calls: `none` is a panic. -/
def TraceIdMiddleware.call (m : TraceIdMiddleware T Rq Rs E ε) (req : Request T Rq E) :
    Option (Except ε (Response Rs)) :=
  let trace_id : TraceId T := TraceId.new m.strat
  let req1 : Request T Rq E := { req with ext_trace_id := some trace_id }
  let header_val : Option HeaderValue :=
    match m.header_name with
    | none => none
    | some _ =>
        some ((HeaderValue.try_from (TraceId.to_string m.strat trace_id)).getD ⟨"unavailable"⟩)
  let req2o : Option (Request T Rq E) :=
    match m.header_name with
    | none => some req1
    | some header_name =>
        match header_val with
        | none => none
        | some hv => some { req1 with headers := req1.headers.insert header_name hv }
  match req2o with
  | none => none
  | some req2 =>
      match m.inner req2 with
      | Except.error e => some (Except.error e)
      | Except.ok resp =>
          match m.header_name with
          | none => some (Except.ok resp)
          | some header_name =>
              match header_val with
              | none => none
              | some hv =>
                  some (Except.ok { resp with headers := resp.headers.insert header_name hv })

/-- `MISSING_TRACE_ID_ERROR` of `extract.rs`. -/
def MISSING_TRACE_ID_ERROR : String :=
  "Unable to extract TraceId: Missing TraceId extension."

/-- `TraceIdRejection` of `extract.rs`. -/
inductive TraceIdRejection where
  | MissingTraceId
deriving DecidableEq, Repr

/-- `StatusCode::INTERNAL_SERVER_ERROR` of the `http` crate. -/
def INTERNAL_SERVER_ERROR : Nat := 500

/-- An axum response as produced by `(StatusCode, String)::into_response`:
a status code and a text body. -/
structure AxumResponse where
  status : Nat
  body : String
deriving DecidableEq, Repr

/-- `IntoResponse for TraceIdRejection` of `extract.rs`: a 500 response whose
body is the fixed missing-trace-id text. -/
def TraceIdRejection.into_response : TraceIdRejection → AxumResponse
  | .MissingTraceId => ⟨INTERNAL_SERVER_ERROR, MISSING_TRACE_ID_ERROR⟩

/-- `FromRequestParts for TraceId<T>` of `extract.rs`: look up the typed
extension entry; absent yields the missing-trace-id rejection, present yields
a clone of the stored value. The request parts are embedded as the request
(the body is simply ignored). -/
def TraceId.from_request_parts (parts : Request T Rq E) :
    Except TraceIdRejection (TraceId T) :=
  match parts.ext_trace_id with
  | none => Except.error TraceIdRejection.MissingTraceId
  | some trace_id => Except.ok trace_id

/-- The `MockTraceId` identifier type of the tests in `extract.rs`. -/
structure MockTraceId where
  id : String
deriving DecidableEq, Repr

/-- The `MakeTraceId` impl of `MockTraceId` in the tests of `extract.rs`:
always generates `"mock_id"`, and `Display` renders the wrapped string. -/
def mockStrategy : MakeTraceId MockTraceId :=
  ⟨⟨"mock_id"⟩, fun m => m.id⟩

/-- The `handle` handler of the `trace_id_extracted` test in `extract.rs`:
extracts `TraceId<T>` from the request parts and renders
`format!("TraceId={trace_id}")`. -/
def handle (st : MakeTraceId T) (parts : Request T Rq E) :
    Except TraceIdRejection String :=
  match TraceId.from_request_parts parts with
  | Except.error r => Except.error r
  | Except.ok t => Except.ok ("TraceId=" ++ TraceId.to_string st t)

/-- The value written into the configured header: the rendered identifier when
it encodes as a header value, else the `"unavailable"` fallback. -/
def headerValueFor (st : MakeTraceId T) (t : TraceId T) : HeaderValue :=
  (HeaderValue.try_from (TraceId.to_string st t)).getD ⟨"unavailable"⟩

/-- The request handed to the inner service by `TraceIdMiddleware::call`:
the incoming request with the fresh `TraceId<T>` extension, and, when a header
name is configured, the trace-id header set. -/
def innerRequest (hn : Option HeaderName) (st : MakeTraceId T) (req : Request T Rq E) :
    Request T Rq E :=
  let t := TraceId.new st
  let r1 := { req with ext_trace_id := some t }
  match hn with
  | none => r1
  | some h => { r1 with headers := r1.headers.insert h (headerValueFor st t) }

/-- The response returned to the caller, as a function of the inner service's
successful response: unchanged when no header name is configured, otherwise
with the trace-id header set. -/
def outerResponse (hn : Option HeaderName) (st : MakeTraceId T) (resp : Response Rs) :
    Response Rs :=
  match hn with
  | none => resp
  | some h => { resp with headers := resp.headers.insert h (headerValueFor st (TraceId.new st)) }

theorem call_eq (m : TraceIdMiddleware T Rq Rs E ε) (req : Request T Rq E) :
    m.call req =
      some (match m.inner (innerRequest m.header_name m.strat req) with
        | Except.error e => Except.error e
        | Except.ok resp => Except.ok (outerResponse m.header_name m.strat resp)) := by
  obtain ⟨inner, hn, st⟩ := m
  cases hn with
  | none =>
      cases hres : inner (innerRequest none st req) <;>
        simp only [innerRequest] at hres <;>
        simp [TraceIdMiddleware.call, innerRequest, outerResponse, hres]
  | some h =>
      cases hres : inner (innerRequest (some h) st req) <;>
        simp only [innerRequest, headerValueFor] at hres <;>
        simp [TraceIdMiddleware.call, innerRequest, outerResponse, headerValueFor, hres]

/-- C1: for every request processed by the middleware for identifier type `T`
(observed with a recording inner service that returns the request it was
handed), a freshly generated `TraceId T` is inserted into the request's
extensions before the inner service runs: afterwards the extensions contain
exactly one `TraceId T` entry (the typed slot is `some`), equal to
`TraceId.new`, and any pre-existing entry of the incoming request has been
overwritten by it. -/
theorem trace_id_inserted_before_inner (hn : Option HeaderName) (st : MakeTraceId T)
    (req : Request T Rq E) :
    ∃ resp : Response (Request T Rq E),
      TraceIdMiddleware.call
          (⟨fun r => Except.ok ⟨200, HeaderMap.empty, r⟩, hn, st⟩ :
            TraceIdMiddleware T Rq (Request T Rq E) E ε) req
          = some (Except.ok resp) ∧
        resp.body.ext_trace_id = some (TraceId.new st) := by
  refine ⟨outerResponse hn st ⟨200, HeaderMap.empty, innerRequest hn st req⟩, ?_, ?_⟩
  · rw [call_eq]
  · cases hn <;> rfl

/-- C2: insert-then-extract round trip. For every request processed by the
middleware (again observed with a recording inner service), downstream
extraction of `TraceId T` from the request handed to the inner service
succeeds and returns (a clone of) the generated trace id; and for the mock
strategy whose `make_trace_id` returns the fixed string `"mock_id"`, the
handler that extracts and renders the trace id produces `"TraceId=mock_id"`. -/
theorem insert_extract_round_trip (hn : Option HeaderName) (st : MakeTraceId T)
    (req : Request T Rq E) :
    (∃ resp : Response (Request T Rq E),
      TraceIdMiddleware.call
          (⟨fun r => Except.ok ⟨200, HeaderMap.empty, r⟩, hn, st⟩ :
            TraceIdMiddleware T Rq (Request T Rq E) E ε) req
          = some (Except.ok resp) ∧
        TraceId.from_request_parts resp.body = Except.ok (TraceId.new st)) ∧
    handle mockStrategy
        (innerRequest none mockStrategy ⟨"GET", "/", HeaderMap.empty, none, (), ()⟩)
      = Except.ok "TraceId=mock_id" := by
  refine ⟨⟨outerResponse hn st ⟨200, HeaderMap.empty, innerRequest hn st req⟩, ?_, ?_⟩, ?_⟩
  · rw [call_eq]
  · cases hn <;> rfl
  · rfl

/-- C3: extraction of `TraceId T` from a request whose extensions hold no
`TraceId T` entry fails with the missing-trace-id rejection, and that
rejection renders to the HTTP 500 response whose body is exactly
"Unable to extract TraceId: Missing TraceId extension.". -/
theorem missing_extension_rejected (req : Request T Rq E)
    (h : req.ext_trace_id = none) :
    TraceId.from_request_parts req = Except.error TraceIdRejection.MissingTraceId ∧
    TraceIdRejection.into_response TraceIdRejection.MissingTraceId =
      ⟨500, "Unable to extract TraceId: Missing TraceId extension."⟩ := by
  refine ⟨?_, rfl⟩
  simp [TraceId.from_request_parts, h]

/-- Witness for C3 at a concrete request with no trace-id extension. -/
theorem missing_extension_rejected_witness :
    (⟨"GET", "/", HeaderMap.empty, none, (), ()⟩ :
        Request MockTraceId Unit Unit).ext_trace_id = none ∧
    (TraceId.from_request_parts
        (⟨"GET", "/", HeaderMap.empty, none, (), ()⟩ : Request MockTraceId Unit Unit)
        = Except.error TraceIdRejection.MissingTraceId ∧
      TraceIdRejection.into_response TraceIdRejection.MissingTraceId =
        ⟨500, "Unable to extract TraceId: Missing TraceId extension."⟩) :=
  ⟨rfl, missing_extension_rejected _ rfl⟩

/-- C7: with no header name configured, the middleware hands the inner service
the incoming request with only the `TraceId T` extension slot changed (in
particular the request headers are untouched, so no trace-id header is
written) and returns the inner service's result unchanged (so no header is
written to the response either), while the trace-id extension is still set. -/
theorem no_header_name_no_header (st : MakeTraceId T)
    (inner : Request T Rq E → Except ε (Response Rs)) (req : Request T Rq E) :
    TraceIdMiddleware.call ⟨inner, none, st⟩ req
      = some (inner { req with ext_trace_id := some (TraceId.new st) }) := by
  rw [call_eq]
  cases hres : inner { req with ext_trace_id := some (TraceId.new st) } <;>
    simp [innerRequest, outerResponse, hres]

/-- C9: within one `call`, the header value local is `some` exactly when the
configured header name is `some`, so the `unwrap` of the header value can
never panic: `call` never returns the panic value, for any middleware
configuration and any request. -/
theorem call_unwrap_never_panics (m : TraceIdMiddleware T Rq Rs E ε)
    (req : Request T Rq E) :
    (m.call req).isSome = true := by
  rw [call_eq]
  rfl

/-- A concrete header name for witnesses. -/
def sampleName : HeaderName := ⟨"x-trace-id"⟩

/-- A concrete incoming request for witnesses. -/
def sampleRequest : Request MockTraceId Unit Unit :=
  ⟨"GET", "/", HeaderMap.empty, none, (), ()⟩

/-- A concrete inner service for witnesses: always returns an empty 200. -/
def sampleInner : Request MockTraceId Unit Unit → Except Unit (Response Unit) :=
  fun _ => Except.ok ⟨200, HeaderMap.empty, ()⟩

/-- A concrete inner response for witnesses. -/
def sampleResponse : Response Unit := ⟨200, HeaderMap.empty, ()⟩

theorem try_from_of_isSome (s : String)
    (h : (HeaderValue.try_from s).isSome = true) :
    HeaderValue.try_from s = some ⟨s⟩ := by
  unfold HeaderValue.try_from at h ⊢
  split at h
  · simp_all
  · simp at h

/-- C4: header round-trip identity. With a header name configured and an inner
service that succeeds, the middleware's result is the inner response with the
trace-id header set; the request handed to the inner service and the response
returned to the caller carry the same value for that header, namely the
rendered identifier when it is a valid header value and the literal
`"unavailable"` when it is not. -/
theorem header_round_trip (st : MakeTraceId T) (h : HeaderName)
    (inner : Request T Rq E → Except ε (Response Rs)) (req : Request T Rq E)
    (resp : Response Rs)
    (hok : inner (innerRequest (some h) st req) = Except.ok resp) :
    TraceIdMiddleware.call ⟨inner, some h, st⟩ req
        = some (Except.ok (outerResponse (some h) st resp)) ∧
    (innerRequest (some h) st req).headers h
        = some (headerValueFor st (TraceId.new st)) ∧
    (outerResponse (some h) st resp).headers h
        = some (headerValueFor st (TraceId.new st)) ∧
    ((HeaderValue.try_from (TraceId.to_string st (TraceId.new st))).isSome = true →
      headerValueFor st (TraceId.new st) = ⟨TraceId.to_string st (TraceId.new st)⟩) ∧
    (HeaderValue.try_from (TraceId.to_string st (TraceId.new st)) = none →
      headerValueFor st (TraceId.new st) = ⟨"unavailable"⟩) := by
  refine ⟨?_, ?_, ?_, ?_, ?_⟩
  · rw [call_eq]
    dsimp only
    rw [hok]
  · simp [innerRequest, HeaderMap.insert]
  · simp [outerResponse, HeaderMap.insert]
  · intro hv
    rw [headerValueFor, try_from_of_isSome _ hv]
    rfl
  · intro hv
    rw [headerValueFor, hv]
    rfl

/-- Witness for C4 at the mock strategy, a concrete header name, request, and
succeeding inner service. -/
theorem header_round_trip_witness :
    sampleInner (innerRequest (some sampleName) mockStrategy sampleRequest)
        = Except.ok sampleResponse ∧
    (TraceIdMiddleware.call ⟨sampleInner, some sampleName, mockStrategy⟩ sampleRequest
        = some (Except.ok (outerResponse (some sampleName) mockStrategy sampleResponse)) ∧
    (innerRequest (some sampleName) mockStrategy sampleRequest).headers sampleName
        = some (headerValueFor mockStrategy (TraceId.new mockStrategy)) ∧
    (outerResponse (some sampleName) mockStrategy sampleResponse).headers sampleName
        = some (headerValueFor mockStrategy (TraceId.new mockStrategy)) ∧
    ((HeaderValue.try_from
          (TraceId.to_string mockStrategy (TraceId.new mockStrategy))).isSome = true →
      headerValueFor mockStrategy (TraceId.new mockStrategy)
        = ⟨TraceId.to_string mockStrategy (TraceId.new mockStrategy)⟩) ∧
    (HeaderValue.try_from (TraceId.to_string mockStrategy (TraceId.new mockStrategy)) = none →
      headerValueFor mockStrategy (TraceId.new mockStrategy) = ⟨"unavailable"⟩)) :=
  ⟨rfl, header_round_trip mockStrategy sampleName sampleInner sampleRequest sampleResponse rfl⟩

/-- C5: when the rendered identifier is not a valid header value, the
middleware substitutes the fixed fallback literal `"unavailable"` as the
header value (both on the request handed to the inner service and, via
`outerResponse`, on the response), and the failure is never propagated: the
inner service is still invoked and its result returned. -/
theorem encoding_failure_fallback (st : MakeTraceId T) (h : HeaderName)
    (inner : Request T Rq E → Except ε (Response Rs)) (req : Request T Rq E)
    (hbad : HeaderValue.try_from (TraceId.to_string st (TraceId.new st)) = none) :
    headerValueFor st (TraceId.new st) = ⟨"unavailable"⟩ ∧
    (innerRequest (some h) st req).headers h = some ⟨"unavailable"⟩ ∧
    TraceIdMiddleware.call ⟨inner, some h, st⟩ req
      = some (match inner (innerRequest (some h) st req) with
          | Except.error e => Except.error e
          | Except.ok resp => Except.ok (outerResponse (some h) st resp)) := by
  refine ⟨?_, ?_, ?_⟩
  · rw [headerValueFor, hbad]
    rfl
  · simp [innerRequest, HeaderMap.insert, headerValueFor, hbad]
  · cases hres : inner (innerRequest (some h) st req) <;>
      rw [call_eq] <;> simp [hres]

/-- A strategy for witnesses whose identifier renders to a newline, which is
not a valid header value. -/
def badStrategy : MakeTraceId MockTraceId := ⟨⟨"\n"⟩, fun m => m.id⟩

/-- Witness for C5 at a strategy whose identifier renders to a newline, which
is not a valid header value. -/
theorem encoding_failure_fallback_witness :
    HeaderValue.try_from
        (TraceId.to_string badStrategy (TraceId.new badStrategy)) = none ∧
    (headerValueFor badStrategy (TraceId.new badStrategy) = ⟨"unavailable"⟩ ∧
    (innerRequest (some sampleName) badStrategy sampleRequest).headers sampleName
        = some ⟨"unavailable"⟩ ∧
    TraceIdMiddleware.call ⟨sampleInner, some sampleName, badStrategy⟩ sampleRequest
      = some (match sampleInner (innerRequest (some sampleName) badStrategy sampleRequest) with
          | Except.error e => Except.error e
          | Except.ok resp => Except.ok (outerResponse (some sampleName) badStrategy resp))) :=
  ⟨by decide, encoding_failure_fallback badStrategy sampleName sampleInner sampleRequest
    (by decide)⟩

/-- C6: when the inner service returns an error, the middleware returns that
error unchanged, with no wrapping or suppression, and no response-header write
occurs because no response value exists in the error case. -/
theorem inner_error_propagated (m : TraceIdMiddleware T Rq Rs E ε)
    (req : Request T Rq E) (e : ε)
    (herr : m.inner (innerRequest m.header_name m.strat req) = Except.error e) :
    m.call req = some (Except.error e) := by
  rw [call_eq, herr]

/-- Witness for C6 at a concrete inner service that always fails with `7`. -/
theorem inner_error_propagated_witness :
    (⟨fun _ => Except.error 7, some sampleName, mockStrategy⟩ :
          TraceIdMiddleware MockTraceId Unit Unit Unit Nat).inner
        (innerRequest (⟨fun _ => Except.error 7, some sampleName, mockStrategy⟩ :
              TraceIdMiddleware MockTraceId Unit Unit Unit Nat).header_name
          mockStrategy sampleRequest)
        = Except.error 7 ∧
    TraceIdMiddleware.call
        (⟨fun _ => Except.error 7, some sampleName, mockStrategy⟩ :
          TraceIdMiddleware MockTraceId Unit Unit Unit Nat) sampleRequest
      = some (Except.error 7) :=
  ⟨rfl, inner_error_propagated _ sampleRequest 7 rfl⟩

/-- C8: `with_header_name` is partial. For every string that is not a valid
HTTP header field name (in particular any string containing a space), the
call panics — the `unwrap` on the failed `HeaderName::from_str`, modelled as
`none`; for every valid header-name string it returns the layer with that
(lowercased) header name configured. -/
theorem with_header_name_panics_on_invalid (l : SetTraceIdLayer T) (s : String) :
    ((!s.data.isEmpty && s.data.all is_header_name_char) = false →
      l.with_header_name s = none) ∧
    ((!s.data.isEmpty && s.data.all is_header_name_char) = true →
      l.with_header_name s = some ⟨some ⟨String.mk (s.data.map Char.toLower)⟩⟩) ∧
    (Char.ofNat 32 ∈ s.data → l.with_header_name s = none) := by
  refine ⟨?_, ?_, ?_⟩
  · intro hbad
    simp [SetTraceIdLayer.with_header_name, HeaderName.from_str, hbad]
  · intro hgood
    simp [SetTraceIdLayer.with_header_name, HeaderName.from_str, hgood]
  · intro hsp
    have hall : s.data.all is_header_name_char = false := by
      by_contra hc
      have hmem := List.all_eq_true.mp (eq_true_of_ne_false hc) _ hsp
      exact absurd hmem (by decide)
    simp [SetTraceIdLayer.with_header_name, HeaderName.from_str, hall]

/-- Witness for C8: a name with a space panics, a valid mixed-case name is
accepted and lowercased. -/
theorem with_header_name_panics_on_invalid_witness :
    (SetTraceIdLayer.new MockTraceId).with_header_name "x trace-id" = none ∧
    (SetTraceIdLayer.new MockTraceId).with_header_name "X-Trace-Id"
      = some ⟨some ⟨"x-trace-id"⟩⟩ := by
  constructor
  · exact (with_header_name_panics_on_invalid (SetTraceIdLayer.new MockTraceId) "x trace-id").2.2
      (by decide)
  · have hv := (with_header_name_panics_on_invalid (SetTraceIdLayer.new MockTraceId) "X-Trace-Id").2.1
      (by decide)
    rw [hv]
    decide

/-- C10: frame property. The request handed to the inner service keeps the
incoming request's method, URI, body, and non-trace-id extensions, and every
header other than the configured header name; on success, the response
returned to the caller keeps the inner response's status, body, and every
header other than the configured header name. -/
theorem middleware_frame (m : TraceIdMiddleware T Rq Rs E ε) (req : Request T Rq E)
    (resp : Response Rs)
    (hok : m.inner (innerRequest m.header_name m.strat req) = Except.ok resp) :
    (innerRequest m.header_name m.strat req).method = req.method ∧
    (innerRequest m.header_name m.strat req).uri = req.uri ∧
    (innerRequest m.header_name m.strat req).body = req.body ∧
    (innerRequest m.header_name m.strat req).ext_other = req.ext_other ∧
    (∀ h2 : HeaderName, m.header_name ≠ some h2 →
      (innerRequest m.header_name m.strat req).headers h2 = req.headers h2) ∧
    m.call req = some (Except.ok (outerResponse m.header_name m.strat resp)) ∧
    (outerResponse m.header_name m.strat resp).status = resp.status ∧
    (outerResponse m.header_name m.strat resp).body = resp.body ∧
    (∀ h2 : HeaderName, m.header_name ≠ some h2 →
      (outerResponse m.header_name m.strat resp).headers h2 = resp.headers h2) := by
  obtain ⟨inner, hn, st⟩ := m
  dsimp only at hok ⊢
  cases hn with
  | none =>
      refine ⟨rfl, rfl, rfl, rfl, fun h2 _ => rfl, ?_, rfl, rfl, fun h2 _ => rfl⟩
      rw [call_eq]
      dsimp only
      rw [hok]
  | some h =>
      refine ⟨rfl, rfl, rfl, rfl, ?_, ?_, rfl, rfl, ?_⟩
      · intro h2 hne
        have hne2 : ¬ h2 = h := by simpa [eq_comm] using hne
        simp [innerRequest, HeaderMap.insert, hne2]
      · rw [call_eq]
        dsimp only
        rw [hok]
      · intro h2 hne
        have hne2 : ¬ h2 = h := by simpa [eq_comm] using hne
        simp [outerResponse, HeaderMap.insert, hne2]

/-- Witness for C10 at a concrete middleware, request, and inner response. -/
theorem middleware_frame_witness :
    (⟨sampleInner, some sampleName, mockStrategy⟩ :
          TraceIdMiddleware MockTraceId Unit Unit Unit Unit).inner
        (innerRequest (some sampleName) mockStrategy sampleRequest)
        = Except.ok sampleResponse ∧
    ((innerRequest (some sampleName) mockStrategy sampleRequest).method
        = sampleRequest.method ∧
    (innerRequest (some sampleName) mockStrategy sampleRequest).uri = sampleRequest.uri ∧
    (innerRequest (some sampleName) mockStrategy sampleRequest).body = sampleRequest.body ∧
    (innerRequest (some sampleName) mockStrategy sampleRequest).ext_other
        = sampleRequest.ext_other ∧
    (∀ h2 : HeaderName, some sampleName ≠ some h2 →
      (innerRequest (some sampleName) mockStrategy sampleRequest).headers h2
        = sampleRequest.headers h2) ∧
    TraceIdMiddleware.call
        (⟨sampleInner, some sampleName, mockStrategy⟩ :
          TraceIdMiddleware MockTraceId Unit Unit Unit Unit) sampleRequest
        = some (Except.ok (outerResponse (some sampleName) mockStrategy sampleResponse)) ∧
    (outerResponse (some sampleName) mockStrategy sampleResponse).status
        = sampleResponse.status ∧
    (outerResponse (some sampleName) mockStrategy sampleResponse).body
        = sampleResponse.body ∧
    (∀ h2 : HeaderName, some sampleName ≠ some h2 →
      (outerResponse (some sampleName) mockStrategy sampleResponse).headers h2
        = sampleResponse.headers h2)) :=
  ⟨rfl, middleware_frame
    (⟨sampleInner, some sampleName, mockStrategy⟩ :
      TraceIdMiddleware MockTraceId Unit Unit Unit Unit) sampleRequest sampleResponse rfl⟩
